import Mathlib

/-!
Shallow embedding of the flutter_checker_rust reconciler (src/main.rs).

The program probes the environment (locate `flutter` and `git` on PATH, read
the SDK's self-reported version, read the project manifest), compares the
desired Flutter version against the probed one, and, when they disagree,
drives the SDK's git checkout through a mutation sequence.

The embedding models the outside world as an `Env`: the host OS identifier,
a deterministic spawn function mapping a command line and working directory
to either a launch failure or a completed subprocess (exit code + combined
stdout/stderr output), the result of reading `pubspec.yaml`, and the current
directory.  Every function that shells out returns, alongside its value, the
list of subprocess invocations it performed, in order, so that theorems can
speak about which commands were issued.
-/

namespace FC

/-- One recorded subprocess invocation: the command line handed to the shell,
the working directory passed to `Command::current_dir` (none = inherit), and
whether stdout/stderr were streamed to the console (`console_print`). -/
structure ShellCall where
  cmd : String
  cwd : Option String
  consolePrint : Bool
deriving DecidableEq, Repr

/-- Outcome of attempting to spawn one subprocess: either the launch itself
fails (`Command::output()` returns an io error), or the process runs to
completion with an exit code and combined stdout/stderr text.  Note that the
source reads only the output of a completed process; the exit code is
captured here so that theorems can talk about commands that launched but
reported failure. -/
inductive SpawnResult where
  | launchFail (msg : String)
  | ran (exitCode : Nat) (output : String)
deriving DecidableEq, Repr

/-- Mirrors `enum ShellError` in the source. -/
inductive ShellError where
  | OSNotSupported
  | CommandFailed (cause : String)
deriving DecidableEq, Repr

/-- The ambient world the program runs in.  `spawn` is deterministic: within
one program run, issuing the same command line in the same directory yields
the same outcome. -/
structure Env where
  os : String
  spawn : String → Option String → SpawnResult
  /-- Models the `File::open("pubspec.yaml")` + `serde_yaml` chain of
  `get_project_version`: the `environment.flutter` value if the file exists,
  parses, and has that key path, else `none`. -/
  projectVersion : Option String
  /-- Models whether `env::set_current_dir` succeeds for a given path. -/
  setCurrentDirOk : String → Bool
  currentDir : String

/-- Mirrors `struct Args` (the two CLI inputs the core consumes). -/
structure Args where
  working_dir : Option String
  desired_version : Option String

/-- Mirrors `struct Status`. -/
structure Status where
  project_version : Option String
  flutter_version : Option String
  flutter_path : Option String
  flutter_root_path : Option String
deriving DecidableEq, Repr

/-! ### String helpers mirroring the Rust std functions the source uses -/

/-- Helper for `splitChar`; accumulates the current fragment in reverse. -/
def splitCharAux (sep : Char) : List Char → List Char → List String
  | [], acc => [String.mk acc.reverse]
  | c :: cs, acc =>
    if c = sep then String.mk acc.reverse :: splitCharAux sep cs []
    else splitCharAux sep cs (c :: acc)

/-- Models Rust `str::split` with a single-character pattern (the source only
splits on `"\n"`, `" "` and, for path components, `"/"`): `"" ↦ [""]`,
separators at the ends produce empty fragments. -/
def splitChar (sep : Char) (s : String) : List String :=
  splitCharAux sep s.data []

/-- ASCII whitespace test used by `trimChars` (the source only ever trims
output containing ASCII whitespace). -/
def isWspChar (c : Char) : Bool :=
  c = ' ' || c = '\t' || c = '\n' || c = '\r'

/-- Models Rust `str::trim`. -/
def trimChars (s : String) : String :=
  String.mk (((s.data.dropWhile isWspChar).reverse.dropWhile isWspChar).reverse)

/-- Non-empty components of a path string, as used by `std::path::Path`. -/
def pathComponents (s : String) : List String :=
  (splitChar '/' s).filter (fun x => decide (x ≠ ""))

def isAbsPath (s : String) : Bool :=
  match s.data with
  | [] => false
  | c :: _ => c = '/'

def joinPath : List String → String
  | [] => ""
  | [x] => x
  | x :: xs => x ++ "/" ++ joinPath xs

/-- Models `std::path::Path::parent`: drop the last component; `none` when
there is no component to drop (e.g. `"/"` or `""`). -/
def parentPath (s : String) : Option String :=
  match pathComponents s with
  | [] => none
  | cs => some ((if isAbsPath s then "/" else "") ++ joinPath cs.dropLast)

/-! ### Shell executor -/

/-- The OS match performed by `shell_run` / `Command::new_shell`. -/
def osSupported (os : String) : Bool :=
  os = "windows" || os = "macos" || os = "linux"

/-- Mirrors `shell_run`: on an unsupported OS return `OSNotSupported` without
spawning anything; otherwise spawn exactly one subprocess (recorded in the
trace).  A launch failure becomes `CommandFailed(cause)`.  A process that ran
returns `Ok` with its combined output — the source never inspects the exit
status, so a non-zero exit is still `Ok`. -/
def shell_run (env : Env) (cmd : String) (cwd : Option String) (consolePrint : Bool) :
    Except ShellError String × List ShellCall :=
  if osSupported env.os then
    match env.spawn cmd cwd with
    | .launchFail m => (.error (.CommandFailed m), [⟨cmd, cwd, consolePrint⟩])
    | .ran _ out => (.ok out, [⟨cmd, cwd, consolePrint⟩])
  else
    (.error .OSNotSupported, [])

/-- Sequencing of `shell_run(...).await?` steps: on error stop and surface
the error, keeping the trace so far; on success continue with `k`. -/
def andThen (env : Env) (cmd : String) (cwd : Option String)
    (k : String → Except ShellError Unit × List ShellCall) :
    Except ShellError Unit × List ShellCall :=
  match shell_run env cmd cwd true with
  | (.error e, t) => (.error e, t)
  | (.ok out, t) => ((k out).1, t ++ (k out).2)

/-- Prepend an already-recorded trace (used for the best-effort workaround
step, whose result is discarded with `let _ =`). -/
def withTrace (t : List ShellCall) (p : Except ShellError Unit × List ShellCall) :
    Except ShellError Unit × List ShellCall :=
  (p.1, t ++ p.2)

/-! ### Environment probe -/

/-- Result-parsing of the Windows `where` output: first line, trimmed, empty
means absent. -/
def locate_parse_win (r : Except ShellError String) : Option String :=
  match r with
  | .error _ => none
  | .ok out =>
    match (splitChar '\n' out).head? with
    | none => none
    | some line => if trimChars line = "" then none else some (trimChars line)

/-- Result-parsing of the unix `which` output: whole output trimmed, empty
means absent. -/
def locate_parse_unix (r : Except ShellError String) : Option String :=
  match r with
  | .error _ => none
  | .ok out => if trimChars out = "" then none else some (trimChars out)

/-- Common shape of `get_flutter_command_path` and `get_git_command_path`
(the source duplicates this function for the two binaries). -/
def locate_command (env : Env) (winCmd unixCmd : String) :
    Option String × List ShellCall :=
  match env.os with
  | "windows" =>
    (locate_parse_win (shell_run env winCmd none false).1, (shell_run env winCmd none false).2)
  | "macos" =>
    (locate_parse_unix (shell_run env unixCmd none false).1, (shell_run env unixCmd none false).2)
  | "linux" =>
    (locate_parse_unix (shell_run env unixCmd none false).1, (shell_run env unixCmd none false).2)
  | _ => (none, [])

def get_flutter_command_path (env : Env) : Option String × List ShellCall :=
  locate_command env "where flutter" "which flutter"

def get_git_command_path (env : Env) : Option String × List ShellCall :=
  locate_command env "where git" "which git"

/-- The parsing step of `get_flutter_version`: first line of the output,
split on single spaces, second token, trimmed. -/
def parse_flutter_version (out : String) : Option String :=
  match (splitChar '\n' out).head? with
  | none => none
  | some line =>
    match (splitChar ' ' line)[1]? with
    | none => none
    | some tok => some (trimChars tok)

/-- Mirrors `get_flutter_version`: run `flutter --version` (silently), absent
on any shell error, else parse. -/
def get_flutter_version (env : Env) : Option String × List ShellCall :=
  ((match (shell_run env "flutter --version" none false).1 with
    | .error _ => none
    | .ok out => parse_flutter_version out),
   (shell_run env "flutter --version" none false).2)

/-- Mirrors `get_flutter_path`: parent directory of the located binary. -/
def get_flutter_path (env : Env) : Option String × List ShellCall :=
  ((get_flutter_command_path env).1.bind parentPath, (get_flutter_command_path env).2)

/-- Mirrors `get_flutter_root_path`: parent of `get_flutter_path` (which is
probed again, as in the source). -/
def get_flutter_root_path (env : Env) : Option String × List ShellCall :=
  ((get_flutter_path env).1.bind parentPath, (get_flutter_path env).2)

/-- Mirrors `get_project_version`; see `Env.projectVersion`. -/
def get_project_version (env : Env) : Option String :=
  env.projectVersion

/-- Mirrors `Status::update`: the four probes are independent futures joined
with `join_all`; none of them yields before completing, so they run in array
order.  Every field is fully replaced. -/
def Status.update (env : Env) : Status × List ShellCall :=
  (⟨get_project_version env, (get_flutter_version env).1,
    (get_flutter_path env).1, (get_flutter_root_path env).1⟩,
   (get_flutter_version env).2 ++ (get_flutter_path env).2 ++ (get_flutter_root_path env).2)

def optStr (o : Option String) : String := o.getD "None"

/-- Mirrors the `Display` impl of `Status` (the `None` placeholder included). -/
def Status.display (s : Status) : String :=
  "Project version: " ++ optStr s.project_version ++ "\n" ++
  "Flutter version: " ++ optStr s.flutter_version ++ "\n" ++
  "Flutter path: " ++ optStr s.flutter_path ++ "\n" ++
  "Flutter root path: " ++ optStr s.flutter_root_path

/-- Debug rendering of a `ShellError`, as printed by `run`. -/
def shellErrorText : ShellError → String
  | .OSNotSupported => "OSNotSupported"
  | .CommandFailed m => "CommandFailed(" ++ m ++ ")"

/-! ### Reconciler mutation sequence -/

/-- The channel-name membership test of `change_flutter_version`. -/
def isChannel (v : String) : Bool :=
  v = "stable" || v = "beta" || v = "main" || v = "master"

/-- The version-keyed workaround step (`if version == "3.29.0"`): remove
`engine/src/.gn` under the SDK root; the shell result is discarded
(`let _ = ...`), only the trace remains. -/
def workaround_3_29 (env : Env) (s : Status) : List ShellCall :=
  match env.os with
  | "windows" => (shell_run env "del .\\engine\\src\\.gn" s.flutter_root_path true).2
  | "macos" => (shell_run env "rm -rf ./engine/src/.gn" s.flutter_root_path true).2
  | "linux" => (shell_run env "rm -rf ./engine/src/.gn" s.flutter_root_path true).2
  | _ => []

/-- Tail of the mutation sequence after the checkout part: doctor, clean,
pub upgrade (all in the inherited working directory), and on macOS only,
`pod install` inside `./ios`. -/
def finish_sequence (env : Env) : Except ShellError Unit × List ShellCall :=
  andThen env "flutter doctor" none (fun _ =>
  andThen env "flutter clean" none (fun _ =>
  andThen env "flutter pub upgrade" none (fun _ =>
  if env.os = "macos" then
    andThen env "pod install" (some "./ios") (fun _ => (.ok (), []))
  else
    (.ok (), []))))

/-- The calls contributed by the workaround lookup: its registry has the
single key `"3.29.0"`. -/
def workTrace (env : Env) (v : String) (s : Status) : List ShellCall :=
  if v = "3.29.0" then workaround_3_29 env s else []

/-- Mirrors `change_flutter_version`: a recognized channel name runs a single
`flutter channel` command and returns; otherwise reset / fetch / checkout /
reset against `status.flutter_path`, then the best-effort 3.29.0 workaround,
then the doctor/clean/upgrade tail. -/
def change_flutter_version (env : Env) (version : String) (s : Status) :
    Except ShellError Unit × List ShellCall :=
  if isChannel version then
    andThen env ("flutter channel " ++ version) none (fun _ => (.ok (), []))
  else
    andThen env "git reset --hard" s.flutter_path (fun _ =>
    andThen env "git fetch" s.flutter_path (fun _ =>
    andThen env ("git checkout " ++ version) s.flutter_path (fun _ =>
    andThen env "git reset --hard" s.flutter_path (fun _ =>
    withTrace (workTrace env version s) (finish_sequence env)))))

/-! ### Top-level run -/

def noProjectMsg : String :=
  "No project version found. Please specify a version with --desiredVersion or set the project version in pubspec.yaml"

def couldNotChangeMsg (e : ShellError) : String :=
  "Could not change flutter version\\nError: " ++ shellErrorText e

/-- The detection step of `run`: `join!` polls both locate futures to
completion before either result is inspected. -/
def detect_trace (env : Env) : List ShellCall :=
  (get_flutter_command_path env).2 ++ (get_git_command_path env).2

/-- Override branch of `run` (desired version present and non-empty). -/
def run_desired (env : Env) (d : String) (st : Status)
    (t0 t1 : List ShellCall) (log : List String) : List ShellCall × List String :=
  if d = optStr st.flutter_version then
    (t0 ++ t1, log ++ ["Flutter version is already " ++ d])
  else
    match change_flutter_version env d st with
    | (.error e, t2) =>
      (t0 ++ t1 ++ t2,
       log ++ ["Syncing flutter version with desired version...", couldNotChangeMsg e])
    | (.ok _, t2) =>
      (t0 ++ t1 ++ t2 ++ (Status.update env).2,
       log ++ ["Syncing flutter version with desired version...", (Status.update env).1.display])

/-- Manifest branch of `run` (no usable override). -/
def run_project (env : Env) (st : Status)
    (t0 t1 : List ShellCall) (log : List String) : List ShellCall × List String :=
  match st.project_version with
  | some pv =>
    if pv = "" then (t0 ++ t1, log ++ [noProjectMsg])
    else if pv = optStr st.flutter_version then
      (t0 ++ t1, log ++ ["Flutter version is already " ++ pv])
    else
      match change_flutter_version env pv st with
      | (.error e, t2) =>
        (t0 ++ t1 ++ t2,
         log ++ ["Flutter version is not synced with project version. Syncing...",
                 couldNotChangeMsg e])
      | (.ok _, t2) =>
        (t0 ++ t1 ++ t2 ++ (Status.update env).2,
         log ++ ["Flutter version is not synced with project version. Syncing...",
                 (Status.update env).1.display])
  | none => (t0 ++ t1, log ++ [noProjectMsg])

/-- Continuation of `run` after the working-directory handling: load the
status, then dispatch on the desired-version override (used only when
non-empty — `Some(dv) if !dv.is_empty()`), falling through to the project
manifest value. -/
def run_after_dir (env : Env) (args : Args) (t0 : List ShellCall) (log : List String) :
    List ShellCall × List String :=
  let log := log ++ ["Current directory is: " ++ env.currentDir, "Loading current status...",
                     (Status.update env).1.display]
  match args.desired_version with
  | some d =>
    if d = "" then run_project env (Status.update env).1 t0 (Status.update env).2 log
    else run_desired env d (Status.update env).1 t0 (Status.update env).2
           (log ++ ["Desired version: " ++ d])
  | none => run_project env (Status.update env).1 t0 (Status.update env).2 log

/-- Mirrors `run`: detect both tools (reporting which one is missing), handle
the working-directory argument, load the status, then reconcile.  Returns the
full ordered list of subprocess invocations and the printed report lines. -/
def run (env : Env) (args : Args) : List ShellCall × List String :=
  if (get_flutter_command_path env).1 = none then
    (detect_trace env,
     ["Flutter checker rust version", "Flutter not found. Please install it and add it to path"])
  else if (get_git_command_path env).1 = none then
    (detect_trace env,
     ["Flutter checker rust version", "Git not found. Please install it and add it to path"])
  else
    match args.working_dir with
    | some wd =>
      if env.setCurrentDirOk wd then
        run_after_dir env args (detect_trace env) ["Flutter checker rust version"]
      else
        (detect_trace env,
         ["Flutter checker rust version",
          "Could not set the working directory, make sure --workingDirectory (-d) is a correct path"])
    | none =>
      run_after_dir env args (detect_trace env)
        ["Flutter checker rust version", "No working directory specified, using current directory"]

/-! ### Classification of recorded calls -/

/-- The read-only probe commands (PATH lookups and the version probe); all
are issued with output captured silently.  Every other command the program
can issue mutates the SDK checkout, the SDK caches, or the project. -/
def isProbeCall (c : ShellCall) : Bool :=
  (c.cmd = "flutter --version" || c.cmd = "which flutter" || c.cmd = "where flutter" ||
   c.cmd = "which git" || c.cmd = "where git") && !c.consolePrint

/-- The registered workaround commands (one registry key, `"3.29.0"`). -/
def isWorkaroundCall (c : ShellCall) : Bool :=
  c.cmd = "rm -rf ./engine/src/.gn" || c.cmd = "del .\\engine\\src\\.gn"

/-- The pinned-reference git sequence, in order, each run in the SDK
checkout directory recorded in the status. -/
def gitSeq (v : String) (s : Status) : List ShellCall :=
  [⟨"git reset --hard", s.flutter_path, true⟩,
   ⟨"git fetch", s.flutter_path, true⟩,
   ⟨"git checkout " ++ v, s.flutter_path, true⟩,
   ⟨"git reset --hard", s.flutter_path, true⟩]

def doctorCall : ShellCall := ⟨"flutter doctor", none, true⟩

def cleanCall : ShellCall := ⟨"flutter clean", none, true⟩

def upgradeCall : ShellCall := ⟨"flutter pub upgrade", none, true⟩

def podCall : ShellCall := ⟨"pod install", some "./ios", true⟩

/-! ### Concrete environments used to exercise the theorems -/

/-- A Linux host where every subprocess launches and exits 0 with empty
output. -/
def envAllOk : Env :=
  { os := "linux", spawn := fun _ _ => .ran 0 "",
    projectVersion := none, setCurrentDirOk := fun _ => true,
    currentDir := "/home/dev/proj" }

/-- A populated status as produced by a refresh on a standard install. -/
def status0 : Status :=
  ⟨none, some "3.16.0", some "/usr/local/bin", some "/usr/local"⟩

/-- Spawn behaviour of a standard Linux install: flutter 3.16.0 at
`/usr/local/bin/flutter`, git present, every other command succeeds. -/
def probedSpawn : String → Option String → SpawnResult := fun c _ =>
  if c = "which flutter" then .ran 0 "/usr/local/bin/flutter\n"
  else if c = "which git" then .ran 0 "/usr/bin/git\n"
  else if c = "flutter --version" then
    .ran 0 "Flutter 3.16.0 • channel stable\nTools • Dart 3.2.0"
  else .ran 0 ""

def envLinux (pv : Option String) : Env :=
  { os := "linux", spawn := probedSpawn, projectVersion := pv,
    setCurrentDirOk := fun _ => true, currentDir := "/home/dev/proj" }

/-- Like `envLinux` but `flutter` is not on PATH (`which flutter` prints
nothing). -/
def envNoFlutter : Env :=
  { os := "linux",
    spawn := fun c _ => if c = "which git" then .ran 0 "/usr/bin/git\n" else .ran 0 "",
    projectVersion := none, setCurrentDirOk := fun _ => true,
    currentDir := "/home/dev/proj" }

/-- Like `envLinux` but `flutter --version` prints nothing, so the probed
version is absent. -/
def envNoVer : Env :=
  { os := "linux",
    spawn := fun c _ =>
      if c = "which flutter" then .ran 0 "/usr/local/bin/flutter\n"
      else if c = "which git" then .ran 0 "/usr/bin/git\n"
      else .ran 0 "",
    projectVersion := none, setCurrentDirOk := fun _ => true,
    currentDir := "/home/dev/proj" }

/-- All subprocesses launch; `git checkout 3.19.0` exits non-zero (a checkout
of an unknown reference), everything else exits 0. -/
def envCheckoutExit1 : Env :=
  { envAllOk with
    spawn := fun c _ =>
      if c = "git checkout 3.19.0" then .ran 1 "error: pathspec did not match"
      else .ran 0 "" }

/-- `git fetch` fails to launch; everything else runs fine. -/
def envFetchFail : Env :=
  { envAllOk with
    spawn := fun c _ =>
      if c = "git fetch" then .launchFail "No such file or directory"
      else .ran 0 "" }

/-- The 3.29.0 workaround command fails to launch; everything else runs. -/
def envWorkFail : Env :=
  { envAllOk with
    spawn := fun c _ =>
      if c = "rm -rf ./engine/src/.gn" then .launchFail "permission denied"
      else .ran 0 "" }

/-! ### Basic lemmas about the shell executor -/

theorem shell_run_ran {env : Env} {cmd : String} {cwd : Option String} {n : Nat} {o : String}
    (cp : Bool) (hos : osSupported env.os = true) (h : env.spawn cmd cwd = .ran n o) :
    shell_run env cmd cwd cp = (.ok o, [⟨cmd, cwd, cp⟩]) := by
  simp [shell_run, hos, h]

theorem shell_run_lf {env : Env} {cmd : String} {cwd : Option String} {m : String}
    (cp : Bool) (hos : osSupported env.os = true) (h : env.spawn cmd cwd = .launchFail m) :
    shell_run env cmd cwd cp = (.error (.CommandFailed m), [⟨cmd, cwd, cp⟩]) := by
  simp [shell_run, hos, h]

theorem shell_run_snd_supported {env : Env} (cmd : String) (cwd : Option String) (cp : Bool)
    (hos : osSupported env.os = true) :
    (shell_run env cmd cwd cp).2 = [⟨cmd, cwd, cp⟩] := by
  rcases h : env.spawn cmd cwd with m | ⟨n, o⟩
  · rw [shell_run_lf cp hos h]
  · rw [shell_run_ran cp hos h]

theorem mem_shell_run_snd {env : Env} {cmd : String} {cwd : Option String} {cp : Bool}
    {c : ShellCall} (hc : c ∈ (shell_run env cmd cwd cp).2) : c = ⟨cmd, cwd, cp⟩ := by
  unfold shell_run at hc
  split at hc
  · rcases h : env.spawn cmd cwd with m | ⟨n, o⟩ <;> rw [h] at hc <;> simpa using hc
  · simp at hc

theorem andThen_ran {env : Env} {cmd : String} {cwd : Option String} {n : Nat} {o : String}
    (hos : osSupported env.os = true) (h : env.spawn cmd cwd = .ran n o) :
    ∀ k, andThen env cmd cwd k = ((k o).1, ⟨cmd, cwd, true⟩ :: (k o).2) := by
  intro k
  simp [andThen, shell_run_ran true hos h]

theorem andThen_lf {env : Env} {cmd : String} {cwd : Option String} {m : String}
    (hos : osSupported env.os = true) (h : env.spawn cmd cwd = .launchFail m) :
    ∀ k, andThen env cmd cwd k = (.error (.CommandFailed m), [⟨cmd, cwd, true⟩]) := by
  intro k
  simp [andThen, shell_run_lf true hos h]

theorem andThen_unsup {env : Env} (cmd : String) (cwd : Option String)
    (hos : osSupported env.os = false) :
    ∀ k, andThen env cmd cwd k = (.error .OSNotSupported, []) := by
  intro k
  simp [andThen, shell_run, hos]

/-! ### Classification lemmas: the probe functions only issue probe calls -/

theorem probe_locate (env : Env) (wc uc : String)
    (hw : isProbeCall ⟨wc, none, false⟩ = true) (hu : isProbeCall ⟨uc, none, false⟩ = true) :
    ∀ c ∈ (locate_command env wc uc).2, isProbeCall c = true := by
  intro c hc
  unfold locate_command at hc
  split at hc
  · have h := mem_shell_run_snd hc; subst h; exact hw
  · have h := mem_shell_run_snd hc; subst h; exact hu
  · have h := mem_shell_run_snd hc; subst h; exact hu
  · simp at hc

theorem probe_flutter_locate (env : Env) :
    ∀ c ∈ (get_flutter_command_path env).2, isProbeCall c = true :=
  probe_locate env "where flutter" "which flutter" (by decide) (by decide)

theorem probe_git_locate (env : Env) :
    ∀ c ∈ (get_git_command_path env).2, isProbeCall c = true :=
  probe_locate env "where git" "which git" (by decide) (by decide)

theorem probe_version (env : Env) :
    ∀ c ∈ (get_flutter_version env).2, isProbeCall c = true := by
  intro c hc
  have h := mem_shell_run_snd
    (show c ∈ (shell_run env "flutter --version" none false).2 from hc)
  subst h; decide

theorem probe_update (env : Env) :
    ∀ c ∈ (Status.update env).2, isProbeCall c = true := by
  intro c hc
  simp only [Status.update, get_flutter_path, get_flutter_root_path, List.mem_append] at hc
  rcases hc with (hc | hc) | hc
  · exact probe_version env c hc
  · exact probe_flutter_locate env c hc
  · exact probe_flutter_locate env c hc

theorem probe_detect (env : Env) :
    ∀ c ∈ detect_trace env, isProbeCall c = true := by
  intro c hc
  simp only [detect_trace, List.mem_append] at hc
  rcases hc with hc | hc
  · exact probe_flutter_locate env c hc
  · exact probe_git_locate env c hc

/-! ### Branch lemmas about `run` -/

theorem run_eq_after_dir (env : Env) (args : Args) {fp gp : String}
    (hf : (get_flutter_command_path env).1 = some fp)
    (hg : (get_git_command_path env).1 = some gp)
    (hwd : args.working_dir = none) :
    run env args = run_after_dir env args (detect_trace env)
      ["Flutter checker rust version", "No working directory specified, using current directory"] := by
  simp [run, hf, hg, hwd]

theorem run_after_dir_already_override (env : Env) (args : Args) (t0 : List ShellCall)
    (log : List String) (d : String) (hd : args.desired_version = some d) (hne : d ≠ "")
    (heq : d = optStr (Status.update env).1.flutter_version) :
    run_after_dir env args t0 log =
      (t0 ++ (Status.update env).2,
       log ++ ["Current directory is: " ++ env.currentDir, "Loading current status...",
               (Status.update env).1.display, "Desired version: " ++ d,
               "Flutter version is already " ++ d]) := by
  simp only [run_after_dir, hd]
  rw [if_neg hne]
  simp only [run_desired]
  rw [if_pos heq]
  simp

theorem run_after_dir_already_project (env : Env) (args : Args) (t0 : List ShellCall)
    (log : List String) (pv : String)
    (hd : args.desired_version = none ∨ args.desired_version = some "")
    (hpv : (Status.update env).1.project_version = some pv) (hne : pv ≠ "")
    (heq : pv = optStr (Status.update env).1.flutter_version) :
    run_after_dir env args t0 log =
      (t0 ++ (Status.update env).2,
       log ++ ["Current directory is: " ++ env.currentDir, "Loading current status...",
               (Status.update env).1.display, "Flutter version is already " ++ pv]) := by
  rcases hd with hd | hd <;>
  · simp only [run_after_dir, hd]
    simp only [run_project, hpv]
    rw [if_neg hne, if_pos heq]
    simp

theorem run_after_dir_sync_override_err (env : Env) (args : Args) (t0 : List ShellCall)
    (log : List String) (d : String) (e : ShellError) (t2 : List ShellCall)
    (hd : args.desired_version = some d) (hne : d ≠ "")
    (hneq : d ≠ optStr (Status.update env).1.flutter_version)
    (hch : change_flutter_version env d (Status.update env).1 = (.error e, t2)) :
    run_after_dir env args t0 log =
      (t0 ++ (Status.update env).2 ++ t2,
       log ++ ["Current directory is: " ++ env.currentDir, "Loading current status...",
               (Status.update env).1.display, "Desired version: " ++ d,
               "Syncing flutter version with desired version...", couldNotChangeMsg e]) := by
  simp only [run_after_dir, hd]
  rw [if_neg hne]
  simp only [run_desired]
  rw [if_neg hneq, hch]
  simp

theorem run_after_dir_sync_override_ok (env : Env) (args : Args) (t0 : List ShellCall)
    (log : List String) (d : String) (t2 : List ShellCall)
    (hd : args.desired_version = some d) (hne : d ≠ "")
    (hneq : d ≠ optStr (Status.update env).1.flutter_version)
    (hch : change_flutter_version env d (Status.update env).1 = (.ok (), t2)) :
    run_after_dir env args t0 log =
      (t0 ++ (Status.update env).2 ++ t2 ++ (Status.update env).2,
       log ++ ["Current directory is: " ++ env.currentDir, "Loading current status...",
               (Status.update env).1.display, "Desired version: " ++ d,
               "Syncing flutter version with desired version...",
               (Status.update env).1.display]) := by
  simp only [run_after_dir, hd]
  rw [if_neg hne]
  simp only [run_desired]
  rw [if_neg hneq, hch]
  simp

theorem run_after_dir_no_target (env : Env) (args : Args) (t0 : List ShellCall)
    (log : List String)
    (hd : args.desired_version = none ∨ args.desired_version = some "")
    (hpv : (Status.update env).1.project_version = none ∨
           (Status.update env).1.project_version = some "") :
    run_after_dir env args t0 log =
      (t0 ++ (Status.update env).2,
       log ++ ["Current directory is: " ++ env.currentDir, "Loading current status...",
               (Status.update env).1.display, noProjectMsg]) := by
  rcases hd with hd | hd <;> rcases hpv with hpv | hpv <;>
  · simp only [run_after_dir, hd]
    simp only [run_project, hpv]
    simp

/-! ### Lemmas about the mutation sequence -/

theorem os_cases {os : String} (h : osSupported os = true) :
    os = "windows" ∨ os = "macos" ∨ os = "linux" := by
  simpa [osSupported, or_assoc] using h

theorem ne_of_data_head {a b : String} (h : a.data.head? ≠ b.data.head?) : a ≠ b :=
  fun he => h (by rw [he])

theorem head_data_append (s t : String) (c : Char) (h : s.data.head? = some c) :
    (s ++ t).data.head? = some c := by
  rw [String.data_append]
  cases hd : s.data with
  | nil => rw [hd] at h; simp at h
  | cons x xs =>
    rw [hd] at h
    simp at h
    simp [h]

theorem checkout_ne_rm (v : String) : ("git checkout " ++ v) ≠ "rm -rf ./engine/src/.gn" := by
  apply ne_of_data_head
  rw [head_data_append "git checkout " v 'g' (by decide)]
  decide

theorem checkout_ne_del (v : String) : ("git checkout " ++ v) ≠ "del .\\engine\\src\\.gn" := by
  apply ne_of_data_head
  rw [head_data_append "git checkout " v 'g' (by decide)]
  decide

theorem channel_ne_rm (v : String) : ("flutter channel " ++ v) ≠ "rm -rf ./engine/src/.gn" := by
  apply ne_of_data_head
  rw [head_data_append "flutter channel " v 'f' (by decide)]
  decide

theorem channel_ne_del (v : String) : ("flutter channel " ++ v) ≠ "del .\\engine\\src\\.gn" := by
  apply ne_of_data_head
  rw [head_data_append "flutter channel " v 'f' (by decide)]
  decide

/-- On every supported platform the workaround contributes exactly one call,
and it is one of the two registered remediation commands. -/
theorem workaround_3_29_eq (env : Env) (s : Status) (hos : osSupported env.os = true) :
    ∃ wc : ShellCall, workaround_3_29 env s = [wc] ∧ isWorkaroundCall wc = true := by
  rcases os_cases hos with h | h | h
  · exact ⟨⟨"del .\\engine\\src\\.gn", s.flutter_root_path, true⟩,
      by simp [workaround_3_29, h, shell_run_snd_supported _ _ _ hos],
      by simp [isWorkaroundCall]⟩
  · exact ⟨⟨"rm -rf ./engine/src/.gn", s.flutter_root_path, true⟩,
      by simp [workaround_3_29, h, shell_run_snd_supported _ _ _ hos],
      by simp [isWorkaroundCall]⟩
  · exact ⟨⟨"rm -rf ./engine/src/.gn", s.flutter_root_path, true⟩,
      by simp [workaround_3_29, h, shell_run_snd_supported _ _ _ hos],
      by simp [isWorkaroundCall]⟩

theorem finish_sequence_ran (env : Env) (hos : osSupported env.os = true)
    (hl : ∀ c w, ∃ n o, env.spawn c w = SpawnResult.ran n o) :
    (finish_sequence env).2 =
      [doctorCall, cleanCall, upgradeCall] ++ (if env.os = "macos" then [podCall] else []) := by
  obtain ⟨n1, o1, h1⟩ := hl "flutter doctor" none
  obtain ⟨n2, o2, h2⟩ := hl "flutter clean" none
  obtain ⟨n3, o3, h3⟩ := hl "flutter pub upgrade" none
  by_cases hm : env.os = "macos"
  · obtain ⟨n4, o4, h4⟩ := hl "pod install" (some "./ios")
    simp [finish_sequence, andThen_ran hos h1, andThen_ran hos h2, andThen_ran hos h3, hm,
          andThen_ran hos h4, doctorCall, cleanCall, upgradeCall, podCall]
  · simp [finish_sequence, andThen_ran hos h1, andThen_ran hos h2, andThen_ran hos h3, hm,
          doctorCall, cleanCall, upgradeCall]

theorem change_trace_pinned_ran (env : Env) (s : Status) (v : String)
    (hos : osSupported env.os = true) (hch : isChannel v = false)
    (hl : ∀ c w, ∃ n o, env.spawn c w = SpawnResult.ran n o) :
    (change_flutter_version env v s).2 =
      gitSeq v s ++ workTrace env v s ++ (finish_sequence env).2 := by
  obtain ⟨n1, o1, h1⟩ := hl "git reset --hard" s.flutter_path
  obtain ⟨n2, o2, h2⟩ := hl "git fetch" s.flutter_path
  obtain ⟨n3, o3, h3⟩ := hl ("git checkout " ++ v) s.flutter_path
  simp [change_flutter_version, hch, andThen_ran hos h1, andThen_ran hos h2,
        andThen_ran hos h3, withTrace, gitSeq]

/-! ### C1: pinned-reference mutation order -/

/-- C1.  For every non-channel desired reference, the mutation sequence
issues `git reset --hard`, `git fetch`, `git checkout <reference>`,
`git reset --hard` in that exact order, each run in the SDK checkout
directory (`status.flutter_path`), before any workaround, doctor, clean, or
upgrade step: positions 0..3 of the issued-command trace can only hold that
git sequence (so every other step sits strictly after them), and when the
sequence completes successfully the first four calls are exactly that
sequence. -/
theorem C1_pinned_mutation_order (env : Env) (s : Status) (v : String)
    (hch : isChannel v = false) :
    (∀ i, i < 4 → ∀ c : ShellCall, ((change_flutter_version env v s).2)[i]? = some c →
       (gitSeq v s)[i]? = some c)
    ∧ ((change_flutter_version env v s).1 = .ok () →
       (change_flutter_version env v s).2.take 4 = gitSeq v s) := by
  by_cases hos : osSupported env.os = true
  case neg =>
    have hos' : osSupported env.os = false := by
      revert hos; cases osSupported env.os <;> simp
    have hc : change_flutter_version env v s = (.error .OSNotSupported, []) := by
      simp [change_flutter_version, hch, andThen_unsup _ _ hos']
    rw [hc]
    constructor
    · intro i hi c hcc; simp at hcc
    · intro h; simp at h
  case pos =>
    rcases h1 : env.spawn "git reset --hard" s.flutter_path with m1 | ⟨n1, o1⟩
    · have hc : change_flutter_version env v s =
          (.error (.CommandFailed m1), [⟨"git reset --hard", s.flutter_path, true⟩]) := by
        simp [change_flutter_version, hch, andThen_lf hos h1]
      rw [hc]
      constructor
      · intro i hi c hcc
        interval_cases i <;> simp_all [gitSeq]
      · intro h; simp at h
    · rcases h2 : env.spawn "git fetch" s.flutter_path with m2 | ⟨n2, o2⟩
      · have hc : change_flutter_version env v s =
            (.error (.CommandFailed m2),
             [⟨"git reset --hard", s.flutter_path, true⟩, ⟨"git fetch", s.flutter_path, true⟩]) := by
          simp [change_flutter_version, hch, andThen_ran hos h1, andThen_lf hos h2]
        rw [hc]
        constructor
        · intro i hi c hcc
          interval_cases i <;> simp_all [gitSeq]
        · intro h; simp at h
      · rcases h3 : env.spawn ("git checkout " ++ v) s.flutter_path with m3 | ⟨n3, o3⟩
        · have hc : change_flutter_version env v s =
              (.error (.CommandFailed m3),
               [⟨"git reset --hard", s.flutter_path, true⟩, ⟨"git fetch", s.flutter_path, true⟩,
                ⟨"git checkout " ++ v, s.flutter_path, true⟩]) := by
            simp [change_flutter_version, hch, andThen_ran hos h1, andThen_ran hos h2,
                  andThen_lf hos h3]
          rw [hc]
          constructor
          · intro i hi c hcc
            interval_cases i <;> simp_all [gitSeq]
          · intro h; simp at h
        · have hc : (change_flutter_version env v s).2 =
              ⟨"git reset --hard", s.flutter_path, true⟩ :: ⟨"git fetch", s.flutter_path, true⟩ ::
              ⟨"git checkout " ++ v, s.flutter_path, true⟩ ::
              ⟨"git reset --hard", s.flutter_path, true⟩ ::
              (workTrace env v s ++ (finish_sequence env).2) := by
            simp [change_flutter_version, hch, andThen_ran hos h1, andThen_ran hos h2,
                  andThen_ran hos h3, withTrace]
          constructor
          · intro i hi c hcc
            rw [hc] at hcc
            interval_cases i <;> simp_all [gitSeq]
          · intro h
            rw [hc]
            simp [gitSeq]

/-- Witness for C1 at a concrete pinned reference on a healthy install. -/
theorem C1_pinned_mutation_order_witness :
    (change_flutter_version envAllOk "3.19.0" status0).2.take 4 = gitSeq "3.19.0" status0 :=
  (C1_pinned_mutation_order envAllOk status0 "3.19.0" (by decide)).2 rfl

/-! ### C4: channel path -/

/-- C4.  For a recognized channel name the mutation sequence consists of the
single `flutter channel <name>` command: no checkout, reset or fetch, and no
doctor/clean/upgrade step. -/
theorem C4_channel_single_command (env : Env) (s : Status) (v : String)
    (hos : osSupported env.os = true) (hch : isChannel v = true) :
    (change_flutter_version env v s).2 = [⟨"flutter channel " ++ v, none, true⟩] := by
  rcases h : env.spawn ("flutter channel " ++ v) none with m | ⟨n, o⟩
  · simp [change_flutter_version, hch, andThen_lf hos h]
  · simp [change_flutter_version, hch, andThen_ran hos h]

/-- Witness for C4 at the channel name `stable`. -/
theorem C4_channel_single_command_witness :
    (change_flutter_version envAllOk "stable" status0).2 =
      [⟨"flutter channel stable", none, true⟩] :=
  C4_channel_single_command envAllOk status0 "stable" (by decide) (by decide)

/-! ### C2: abort behaviour of the mutation sequence -/

/-- C2 counterexample.  `git checkout 3.19.0` launches and reports a failed
outcome (exit code 1), yet the sequence does not abort: the doctor step is
still executed and the whole sequence reports success.  This refutes the
claim that a subprocess which launches but reports a non-zero outcome stops
the sequence — the source never inspects the exit status. -/
theorem C2_counterexample :
    envCheckoutExit1.spawn "git checkout 3.19.0" (some "/usr/local/bin") =
      SpawnResult.ran 1 "error: pathspec did not match"
    ∧ doctorCall ∈ (change_flutter_version envCheckoutExit1 "3.19.0" status0).2
    ∧ (change_flutter_version envCheckoutExit1 "3.19.0" status0).1 = .ok () :=
  ⟨rfl, by decide, rfl⟩

/-- C2 amended.  The mutation sequence aborts on the first step whose
subprocess fails to LAUNCH, surfacing that step's cause as
`CommandFailed(cause)` and issuing no later command; a subprocess that
launches but exits non-zero is treated as success.  One conjunct per step of
the sequence: channel switch, reset, fetch, checkout, doctor, clean,
pub upgrade, pod install.  (The second `git reset --hard` repeats the first
step's command in the same directory, so under the deterministic environment
its outcome coincides with the first reset's.) -/
theorem C2_amended_abort (env : Env) (s : Status) (v : String)
    (hos : osSupported env.os = true) :
    (∀ m, isChannel v = true →
        env.spawn ("flutter channel " ++ v) none = .launchFail m →
        change_flutter_version env v s =
          (.error (.CommandFailed m), [⟨"flutter channel " ++ v, none, true⟩]))
    ∧ (∀ m, isChannel v = false →
        env.spawn "git reset --hard" s.flutter_path = .launchFail m →
        change_flutter_version env v s =
          (.error (.CommandFailed m), [⟨"git reset --hard", s.flutter_path, true⟩]))
    ∧ (∀ n1 o1 m, isChannel v = false →
        env.spawn "git reset --hard" s.flutter_path = .ran n1 o1 →
        env.spawn "git fetch" s.flutter_path = .launchFail m →
        change_flutter_version env v s =
          (.error (.CommandFailed m),
           [⟨"git reset --hard", s.flutter_path, true⟩, ⟨"git fetch", s.flutter_path, true⟩]))
    ∧ (∀ n1 o1 n2 o2 m, isChannel v = false →
        env.spawn "git reset --hard" s.flutter_path = .ran n1 o1 →
        env.spawn "git fetch" s.flutter_path = .ran n2 o2 →
        env.spawn ("git checkout " ++ v) s.flutter_path = .launchFail m →
        change_flutter_version env v s =
          (.error (.CommandFailed m),
           [⟨"git reset --hard", s.flutter_path, true⟩, ⟨"git fetch", s.flutter_path, true⟩,
            ⟨"git checkout " ++ v, s.flutter_path, true⟩]))
    ∧ (∀ n1 o1 n2 o2 n3 o3 m, isChannel v = false →
        env.spawn "git reset --hard" s.flutter_path = .ran n1 o1 →
        env.spawn "git fetch" s.flutter_path = .ran n2 o2 →
        env.spawn ("git checkout " ++ v) s.flutter_path = .ran n3 o3 →
        env.spawn "flutter doctor" none = .launchFail m →
        change_flutter_version env v s =
          (.error (.CommandFailed m), gitSeq v s ++ workTrace env v s ++ [doctorCall]))
    ∧ (∀ n1 o1 n2 o2 n3 o3 n4 o4 m, isChannel v = false →
        env.spawn "git reset --hard" s.flutter_path = .ran n1 o1 →
        env.spawn "git fetch" s.flutter_path = .ran n2 o2 →
        env.spawn ("git checkout " ++ v) s.flutter_path = .ran n3 o3 →
        env.spawn "flutter doctor" none = .ran n4 o4 →
        env.spawn "flutter clean" none = .launchFail m →
        change_flutter_version env v s =
          (.error (.CommandFailed m),
           gitSeq v s ++ workTrace env v s ++ [doctorCall, cleanCall]))
    ∧ (∀ n1 o1 n2 o2 n3 o3 n4 o4 n5 o5 m, isChannel v = false →
        env.spawn "git reset --hard" s.flutter_path = .ran n1 o1 →
        env.spawn "git fetch" s.flutter_path = .ran n2 o2 →
        env.spawn ("git checkout " ++ v) s.flutter_path = .ran n3 o3 →
        env.spawn "flutter doctor" none = .ran n4 o4 →
        env.spawn "flutter clean" none = .ran n5 o5 →
        env.spawn "flutter pub upgrade" none = .launchFail m →
        change_flutter_version env v s =
          (.error (.CommandFailed m),
           gitSeq v s ++ workTrace env v s ++ [doctorCall, cleanCall, upgradeCall]))
    ∧ (∀ n1 o1 n2 o2 n3 o3 n4 o4 n5 o5 n6 o6 m, env.os = "macos" → isChannel v = false →
        env.spawn "git reset --hard" s.flutter_path = .ran n1 o1 →
        env.spawn "git fetch" s.flutter_path = .ran n2 o2 →
        env.spawn ("git checkout " ++ v) s.flutter_path = .ran n3 o3 →
        env.spawn "flutter doctor" none = .ran n4 o4 →
        env.spawn "flutter clean" none = .ran n5 o5 →
        env.spawn "flutter pub upgrade" none = .ran n6 o6 →
        env.spawn "pod install" (some "./ios") = .launchFail m →
        change_flutter_version env v s =
          (.error (.CommandFailed m),
           gitSeq v s ++ workTrace env v s ++
             [doctorCall, cleanCall, upgradeCall, podCall])) := by
  refine ⟨?_, ?_, ?_, ?_, ?_, ?_, ?_, ?_⟩
  · intro m hch h
    simp [change_flutter_version, hch, andThen_lf hos h]
  · intro m hch h
    simp [change_flutter_version, hch, andThen_lf hos h]
  · intro n1 o1 m hch h1 h2
    simp [change_flutter_version, hch, andThen_ran hos h1, andThen_lf hos h2]
  · intro n1 o1 n2 o2 m hch h1 h2 h3
    simp [change_flutter_version, hch, andThen_ran hos h1, andThen_ran hos h2,
          andThen_lf hos h3]
  · intro n1 o1 n2 o2 n3 o3 m hch h1 h2 h3 h4
    simp [change_flutter_version, hch, andThen_ran hos h1, andThen_ran hos h2,
          andThen_ran hos h3, withTrace, finish_sequence, andThen_lf hos h4,
          gitSeq, doctorCall]
  · intro n1 o1 n2 o2 n3 o3 n4 o4 m hch h1 h2 h3 h4 h5
    simp [change_flutter_version, hch, andThen_ran hos h1, andThen_ran hos h2,
          andThen_ran hos h3, withTrace, finish_sequence, andThen_ran hos h4,
          andThen_lf hos h5, gitSeq, doctorCall, cleanCall]
  · intro n1 o1 n2 o2 n3 o3 n4 o4 n5 o5 m hch h1 h2 h3 h4 h5 h6
    simp [change_flutter_version, hch, andThen_ran hos h1, andThen_ran hos h2,
          andThen_ran hos h3, withTrace, finish_sequence, andThen_ran hos h4,
          andThen_ran hos h5, andThen_lf hos h6, gitSeq, doctorCall, cleanCall, upgradeCall]
  · intro n1 o1 n2 o2 n3 o3 n4 o4 n5 o5 n6 o6 m hm hch h1 h2 h3 h4 h5 h6 h7
    simp [change_flutter_version, hch, andThen_ran hos h1, andThen_ran hos h2,
          andThen_ran hos h3, withTrace, finish_sequence, andThen_ran hos h4,
          andThen_ran hos h5, andThen_ran hos h6, hm, andThen_lf hos h7,
          gitSeq, doctorCall, cleanCall, upgradeCall, podCall]

/-- Witness for the amended C2: a concrete run where `git fetch` fails to
launch stops after the fetch attempt and surfaces the cause. -/
theorem C2_amended_abort_witness :
    change_flutter_version envFetchFail "3.19.0" status0 =
      (.error (.CommandFailed "No such file or directory"),
       [⟨"git reset --hard", some "/usr/local/bin", true⟩,
        ⟨"git fetch", some "/usr/local/bin", true⟩]) :=
  (C2_amended_abort envFetchFail status0 "3.19.0" (by decide)).2.2.1 0 ""
    "No such file or directory" (by decide) rfl rfl

/-! ### C7: the workaround registry -/

/-- C7.  First conjunct: when every subprocess launches, the workaround step
appears in the mutation trace if and only if the resolved reference is
exactly the single registered key `"3.29.0"`.  Second conjunct: on the
channel-name path no workaround command is ever issued.  Third conjunct: a
concrete run for `3.29.0` where the workaround command itself fails to
launch — the sequence still runs doctor, clean and pub upgrade and reports
overall success (the workaround is best-effort). -/
theorem C7_workaround_registry :
    (∀ (env : Env) (s : Status) (v : String), osSupported env.os = true →
      (∀ c w, ∃ n o, env.spawn c w = SpawnResult.ran n o) →
      ((∃ cc ∈ (change_flutter_version env v s).2, isWorkaroundCall cc = true) ↔
        v = "3.29.0"))
    ∧ (∀ (env : Env) (s : Status) (v : String), osSupported env.os = true →
      isChannel v = true →
      ∀ cc ∈ (change_flutter_version env v s).2, isWorkaroundCall cc = false)
    ∧ change_flutter_version envWorkFail "3.29.0" status0 =
      (.ok (),
       gitSeq "3.29.0" status0 ++ [⟨"rm -rf ./engine/src/.gn", some "/usr/local", true⟩] ++
       [doctorCall, cleanCall, upgradeCall]) := by
  refine ⟨?_, ?_, ?_⟩
  · intro env s v hos hl
    by_cases hch : isChannel v = true
    · obtain ⟨n, o, h⟩ := hl ("flutter channel " ++ v) none
      have ht : (change_flutter_version env v s).2 = [⟨"flutter channel " ++ v, none, true⟩] := by
        simp [change_flutter_version, hch, andThen_ran hos h]
      have hv : v ≠ "3.29.0" := by
        simp [isChannel, or_assoc] at hch
        rcases hch with rfl | rfl | rfl | rfl <;> decide
      rw [ht]
      constructor
      · rintro ⟨cc, hmem, hw⟩
        simp at hmem
        subst hmem
        simp [isWorkaroundCall, channel_ne_rm v, channel_ne_del v] at hw
      · intro h; exact absurd h hv
    · have hch' : isChannel v = false := by revert hch; cases isChannel v <;> simp
      have ht := change_trace_pinned_ran env s v hos hch' hl
      have hfin := finish_sequence_ran env hos hl
      by_cases hv : v = "3.29.0"
      · subst hv
        obtain ⟨wc, hwc, hw⟩ := workaround_3_29_eq env s hos
        constructor
        · intro _; rfl
        · intro _
          refine ⟨wc, ?_, hw⟩
          rw [ht]
          simp [workTrace, hwc]
      · constructor
        · rintro ⟨cc, hmem, hw⟩
          rw [ht] at hmem
          rcases List.mem_append.mp hmem with h12 | h3
          · rcases List.mem_append.mp h12 with hg | hwt
            · simp only [gitSeq, List.mem_cons, List.not_mem_nil, or_false] at hg
              rcases hg with rfl | rfl | rfl | rfl <;>
                simp [isWorkaroundCall, checkout_ne_rm v, checkout_ne_del v] at hw
            · simp [workTrace, hv] at hwt
          · rw [hfin] at h3
            rcases List.mem_append.mp h3 with h4 | h5
            · simp only [List.mem_cons, List.not_mem_nil, or_false] at h4
              rcases h4 with rfl | rfl | rfl <;>
                simp [isWorkaroundCall, doctorCall, cleanCall, upgradeCall] at hw
            · by_cases hm : env.os = "macos"
              · rw [if_pos hm] at h5
                simp only [List.mem_cons, List.not_mem_nil, or_false] at h5
                subst h5
                simp [isWorkaroundCall, podCall] at hw
              · rw [if_neg hm] at h5
                simp at h5
        · intro h; exact absurd h hv
  · intro env s v hos hch cc hcc
    rcases h : env.spawn ("flutter channel " ++ v) none with m | ⟨n, o⟩
    · have ht : (change_flutter_version env v s).2 = [⟨"flutter channel " ++ v, none, true⟩] := by
        simp [change_flutter_version, hch, andThen_lf hos h]
      rw [ht] at hcc
      simp at hcc
      subst hcc
      simp [isWorkaroundCall, channel_ne_rm v, channel_ne_del v]
    · have ht : (change_flutter_version env v s).2 = [⟨"flutter channel " ++ v, none, true⟩] := by
        simp [change_flutter_version, hch, andThen_ran hos h]
      rw [ht] at hcc
      simp at hcc
      subst hcc
      simp [isWorkaroundCall, channel_ne_rm v, channel_ne_del v]
  · rfl

/-- Witness for C7: the channel-path conjunct applied to a concrete run. -/
theorem C7_workaround_registry_witness :
    isWorkaroundCall ⟨"flutter channel stable", none, true⟩ = false :=
  C7_workaround_registry.2.1 envAllOk status0 "stable" (by decide) (by decide)
    ⟨"flutter channel stable", none, true⟩ (by decide)

/-! ### C3: idempotence when already synced -/

/-- C3.  Whenever the desired version — the override, or failing that the
manifest value — is exactly the probed SDK version, the run performs only
read-only probe calls: no mutating subprocess is invoked.  Since `run` is a
pure function of the (unchanged) environment, repeated runs against an
already-synced SDK behave identically. -/
theorem C3_idempotent_when_synced (env : Env) (args : Args)
    (h : (∃ d, args.desired_version = some d ∧ d ≠ "" ∧
            (Status.update env).1.flutter_version = some d)
       ∨ ((args.desired_version = none ∨ args.desired_version = some "") ∧
          ∃ pv, (Status.update env).1.project_version = some pv ∧ pv ≠ "" ∧
            (Status.update env).1.flutter_version = some pv)) :
    ∀ c ∈ (run env args).1, isProbeCall c = true := by
  intro c hc
  unfold run at hc
  by_cases hf : (get_flutter_command_path env).1 = none
  · rw [if_pos hf] at hc
    exact probe_detect env c hc
  · rw [if_neg hf] at hc
    by_cases hg : (get_git_command_path env).1 = none
    · rw [if_pos hg] at hc
      exact probe_detect env c hc
    · rw [if_neg hg] at hc
      have key2 : ∀ t0 log, c ∈ (run_after_dir env args t0 log).1 →
          c ∈ t0 ++ (Status.update env).2 := by
        intro t0 log hcc
        rcases h with ⟨d, hd, hne, heq⟩ | ⟨hdv, pv, hpv, hne, heq⟩
        · rw [run_after_dir_already_override env args t0 log d hd hne
            (by simp [optStr, heq])] at hcc
          exact hcc
        · rw [run_after_dir_already_project env args t0 log pv hdv hpv hne
            (by simp [optStr, heq])] at hcc
          exact hcc
      have mem_probe : c ∈ detect_trace env ++ (Status.update env).2 →
          isProbeCall c = true := by
        intro hm
        rcases List.mem_append.mp hm with h1 | h2
        · exact probe_detect env c h1
        · exact probe_update env c h2
      rcases hwd : args.working_dir with _ | wd
      · rw [hwd] at hc
        exact mem_probe (key2 (detect_trace env) _ hc)
      · rw [hwd] at hc
        dsimp only at hc
        by_cases hcd : env.setCurrentDirOk wd = true
        · rw [if_pos hcd] at hc
          exact mem_probe (key2 (detect_trace env) _ hc)
        · rw [if_neg hcd] at hc
          exact probe_detect env c hc

/-- Witness for C3: a synced install probed at `3.16.0` with the override
also `3.16.0` issues probe calls only. -/
theorem C3_idempotent_when_synced_witness :
    ((run (envLinux none) ⟨none, some "3.16.0"⟩).1.all isProbeCall) = true := by
  have h := C3_idempotent_when_synced (envLinux none) ⟨none, some "3.16.0"⟩
    (Or.inl ⟨"3.16.0", rfl, by decide, by decide⟩)
  exact List.all_eq_true.mpr (fun c hc => h c hc)

/-! ### C5: missing tools -/

/-- C5.  If the SDK launcher cannot be located on PATH, or it can but the
version-control tool cannot, `run` stops right after detection: its trace is
the two PATH lookups only (all probes, no mutating command), and the report
names the missing tool. -/
theorem C5_missing_tool (env : Env) (args : Args) :
    ((get_flutter_command_path env).1 = none →
      run env args =
        (detect_trace env,
         ["Flutter checker rust version",
          "Flutter not found. Please install it and add it to path"])
      ∧ ∀ c ∈ (run env args).1, isProbeCall c = true)
    ∧ (∀ fp, (get_flutter_command_path env).1 = some fp →
        (get_git_command_path env).1 = none →
        run env args =
          (detect_trace env,
           ["Flutter checker rust version",
            "Git not found. Please install it and add it to path"])
        ∧ ∀ c ∈ (run env args).1, isProbeCall c = true) := by
  constructor
  · intro hf
    have he : run env args =
        (detect_trace env,
         ["Flutter checker rust version",
          "Flutter not found. Please install it and add it to path"]) := by
      unfold run
      rw [if_pos hf]
    refine ⟨he, ?_⟩
    intro c hc
    rw [he] at hc
    exact probe_detect env c hc
  · intro fp hf hg
    have hf' : ¬((get_flutter_command_path env).1 = none) := by simp [hf]
    have he : run env args =
        (detect_trace env,
         ["Flutter checker rust version",
          "Git not found. Please install it and add it to path"]) := by
      unfold run
      rw [if_neg hf', if_pos hg]
    refine ⟨he, ?_⟩
    intro c hc
    rw [he] at hc
    exact probe_detect env c hc

/-- Witness for C5: a host without `flutter` on PATH. -/
theorem C5_missing_tool_witness :
    run envNoFlutter ⟨none, some "3.19.0"⟩ =
      (detect_trace envNoFlutter,
       ["Flutter checker rust version",
        "Flutter not found. Please install it and add it to path"]) :=
  ((C5_missing_tool envNoFlutter ⟨none, some "3.19.0"⟩).1 (by decide)).1

/-! ### C10: the "None" sentinel comparison -/

/-- C10.  When the probed SDK version is absent, the comparison substitutes
the sentinel text `"None"`, so a desired version equal to the literal string
`"None"` — via the override or via the manifest — is treated as already
matching: the run reports the version as already set and issues only probe
calls (trace = detection plus one status refresh). -/
theorem C10_none_sentinel (env : Env) (args : Args) (fp gp : String)
    (hf : (get_flutter_command_path env).1 = some fp)
    (hg : (get_git_command_path env).1 = some gp)
    (hwd : args.working_dir = none)
    (hv : (Status.update env).1.flutter_version = none) :
    (args.desired_version = some "None" →
      (run env args).1 = detect_trace env ++ (Status.update env).2
      ∧ (∀ c ∈ (run env args).1, isProbeCall c = true)
      ∧ "Flutter version is already None" ∈ (run env args).2)
    ∧ ((args.desired_version = none ∨ args.desired_version = some "") →
      (Status.update env).1.project_version = some "None" →
      (run env args).1 = detect_trace env ++ (Status.update env).2
      ∧ (∀ c ∈ (run env args).1, isProbeCall c = true)
      ∧ "Flutter version is already None" ∈ (run env args).2) := by
  have hrun := run_eq_after_dir env args hf hg hwd
  have mem_probe : ∀ c, c ∈ detect_trace env ++ (Status.update env).2 →
      isProbeCall c = true := by
    intro c hm
    rcases List.mem_append.mp hm with h1 | h2
    · exact probe_detect env c h1
    · exact probe_update env c h2
  have hmsg : ("Flutter version is already None" : String) =
      "Flutter version is already " ++ "None" := rfl
  constructor
  · intro hd
    have he := run_after_dir_already_override env args (detect_trace env)
      ["Flutter checker rust version", "No working directory specified, using current directory"]
      "None" hd (by decide) (by simp [optStr, hv])
    rw [hrun, he]
    refine ⟨rfl, ?_, ?_⟩
    · intro c hc
      exact mem_probe c hc
    · rw [hmsg]
      simp
  · intro hd hpv
    have he := run_after_dir_already_project env args (detect_trace env)
      ["Flutter checker rust version", "No working directory specified, using current directory"]
      "None" hd hpv (by decide) (by simp [optStr, hv])
    rw [hrun, he]
    refine ⟨rfl, ?_, ?_⟩
    · intro c hc
      exact mem_probe c hc
    · rw [hmsg]
      simp

/-- Witness for C10: desired version `"None"` against an SDK whose
`--version` output is empty. -/
theorem C10_none_sentinel_witness :
    "Flutter version is already None" ∈ (run envNoVer ⟨none, some "None"⟩).2 :=
  ((C10_none_sentinel envNoVer ⟨none, some "None"⟩ "/usr/local/bin/flutter" "/usr/bin/git"
      (by decide) (by decide) rfl (by decide)).1 rfl).2.2

/-! ### C6: desired-version resolution order -/

/-- C6 counterexample.  The override emptiness test is `is_empty()` with no
trimming: a whitespace-only override (here `" "`, which trims to the empty
string) does NOT fall through to the manifest value `"3.19.0"` — the run
checks out the literal `" "` reference and never checks out `"3.19.0"`. -/
theorem C6_resolution_counterexample :
    trimChars " " = ""
    ∧ (envLinux (some "3.19.0")).projectVersion = some "3.19.0"
    ∧ (⟨"git checkout  ", some "/usr/local/bin", true⟩ : ShellCall) ∈
        (run (envLinux (some "3.19.0")) ⟨none, some " "⟩).1
    ∧ (⟨"git checkout 3.19.0", some "/usr/local/bin", true⟩ : ShellCall) ∉
        (run (envLinux (some "3.19.0")) ⟨none, some " "⟩).1 :=
  ⟨rfl, rfl, by decide, by decide⟩

/-- C6 amended.  The explicit override takes precedence over the project
manifest whenever it is non-empty as given — no trimming, so a
whitespace-only override is itself used as the desired reference.  First
conjunct: with a non-empty override `d` differing from the probed version,
the issued commands are detection, one status refresh, then exactly the
mutation sequence for `d` (plus a final refresh when it succeeds) — the
manifest value is never consulted.  Second conjunct: when neither the
override nor the manifest value is present and non-empty, the run issues
only the detection and refresh probes and reports `noProjectMsg` (the
"no target version known" report). -/
theorem C6_resolution_order :
    (∀ (env : Env) (args : Args) (d fp gp : String),
      args.working_dir = none → args.desired_version = some d → d ≠ "" →
      (get_flutter_command_path env).1 = some fp →
      (get_git_command_path env).1 = some gp →
      d ≠ optStr (Status.update env).1.flutter_version →
      ((∀ e t2, change_flutter_version env d (Status.update env).1 = (.error e, t2) →
          (run env args).1 = detect_trace env ++ (Status.update env).2 ++ t2)
       ∧ (∀ t2, change_flutter_version env d (Status.update env).1 = (.ok (), t2) →
          (run env args).1 =
            detect_trace env ++ (Status.update env).2 ++ t2 ++ (Status.update env).2)))
    ∧ (∀ (env : Env) (args : Args) (fp gp : String),
      args.working_dir = none →
      (args.desired_version = none ∨ args.desired_version = some "") →
      ((Status.update env).1.project_version = none ∨
        (Status.update env).1.project_version = some "") →
      (get_flutter_command_path env).1 = some fp →
      (get_git_command_path env).1 = some gp →
      (run env args).1 = detect_trace env ++ (Status.update env).2
      ∧ noProjectMsg ∈ (run env args).2) := by
  constructor
  · intro env args d fp gp hwd hd hne hf hg hneq
    have hrun := run_eq_after_dir env args hf hg hwd
    constructor
    · intro e t2 hch
      have he := run_after_dir_sync_override_err env args (detect_trace env)
        ["Flutter checker rust version", "No working directory specified, using current directory"]
        d e t2 hd hne hneq hch
      rw [hrun, he]
    · intro t2 hch
      have he := run_after_dir_sync_override_ok env args (detect_trace env)
        ["Flutter checker rust version", "No working directory specified, using current directory"]
        d t2 hd hne hneq hch
      rw [hrun, he]
  · intro env args fp gp hwd hd hpv hf hg
    have hrun := run_eq_after_dir env args hf hg hwd
    have he := run_after_dir_no_target env args (detect_trace env)
      ["Flutter checker rust version", "No working directory specified, using current directory"]
      hd hpv
    rw [hrun, he]
    exact ⟨rfl, by simp⟩

/-- Witness for the amended C6: the whitespace-only override `" "` drives
the whole mutation sequence (reference `" "`), the manifest value
`"3.19.0"` notwithstanding. -/
theorem C6_resolution_order_witness :
    (run (envLinux (some "3.19.0")) ⟨none, some " "⟩).1 =
      detect_trace (envLinux (some "3.19.0")) ++
      (Status.update (envLinux (some "3.19.0"))).2 ++
      [⟨"git reset --hard", some "/usr/local/bin", true⟩,
       ⟨"git fetch", some "/usr/local/bin", true⟩,
       ⟨"git checkout  ", some "/usr/local/bin", true⟩,
       ⟨"git reset --hard", some "/usr/local/bin", true⟩,
       doctorCall, cleanCall, upgradeCall] ++
      (Status.update (envLinux (some "3.19.0"))).2 :=
  (C6_resolution_order.1 (envLinux (some "3.19.0")) ⟨none, some " "⟩ " "
      "/usr/local/bin/flutter" "/usr/bin/git" rfl rfl (by decide) (by decide) (by decide)
      (by decide)).2
    [⟨"git reset --hard", some "/usr/local/bin", true⟩,
     ⟨"git fetch", some "/usr/local/bin", true⟩,
     ⟨"git checkout  ", some "/usr/local/bin", true⟩,
     ⟨"git reset --hard", some "/usr/local/bin", true⟩,
     doctorCall, cleanCall, upgradeCall] rfl

/-! ### C8: version-output parsing -/

/-- C8 counterexample.  The example output
`"Flutter 3.19.0 • channel stable ..."` is itself a single-line output (it
contains no newline, so splitting on newlines yields one line), yet the
extracted version is `some "3.19.0"`, not absent — refuting the claim that
the extracted version is absent for every single-line output. -/
theorem C8_parse_counterexample :
    (splitChar '\n' "Flutter 3.19.0 • channel stable ...").length = 1
    ∧ parse_flutter_version "Flutter 3.19.0 • channel stable ..." = some "3.19.0" :=
  ⟨rfl, rfl⟩

/-- C8 amended.  Version probing takes the first line of the `--version`
output, splits it on single spaces and takes the second token trimmed: the
example output yields `"3.19.0"`; empty output yields no version; and the
extracted version is absent exactly when the first line has fewer than two
space-separated tokens (not merely when the output is a single line).  The
last conjunct ties the parser to the probe itself. -/
theorem C8_parse_version :
    parse_flutter_version "Flutter 3.19.0 • channel stable ..." = some "3.19.0"
    ∧ parse_flutter_version "" = none
    ∧ (∀ out : String,
        (splitChar ' ' ((splitChar '\n' out).headD "")).length ≤ 1 →
        parse_flutter_version out = none)
    ∧ (∀ (env : Env) (n : Nat) (o : String), osSupported env.os = true →
        env.spawn "flutter --version" none = SpawnResult.ran n o →
        (get_flutter_version env).1 = parse_flutter_version o) := by
  refine ⟨rfl, rfl, ?_, ?_⟩
  · intro out hlen
    unfold parse_flutter_version
    cases hs : (splitChar '\n' out).head? with
    | none => rfl
    | some line =>
      have hd : (splitChar '\n' out).headD "" = line := by
        simp [List.headD_eq_head?, hs]
      rw [hd] at hlen
      have h1 : (splitChar ' ' line)[1]? = none := List.getElem?_eq_none hlen
      dsimp only
      rw [h1]
  · intro env n o hos h
    simp [get_flutter_version, shell_run_ran false hos h]

/-- Witness for the amended C8: a one-token single-line output has no
extractable version. -/
theorem C8_parse_version_witness : parse_flutter_version "x" = none :=
  C8_parse_version.2.2.1 "x" (by decide)

/-! ### C9: root path is the parent of the bin path -/

/-- C9.  In every refreshed status, whenever both the bin path and the root
path are present, the root path is the parent directory of the bin path
(deterministic environment: re-probing the binary location yields the same
answer within one refresh); concretely, locate output
`"/usr/local/bin/flutter"` gives bin path `"/usr/local/bin"` and root path
`"/usr/local"`. -/
theorem C9_root_is_parent_of_bin :
    (∀ (env : Env) (p r : String),
      (Status.update env).1.flutter_path = some p →
      (Status.update env).1.flutter_root_path = some r →
      parentPath p = some r)
    ∧ (Status.update (envLinux none)).1.flutter_path = some "/usr/local/bin"
    ∧ (Status.update (envLinux none)).1.flutter_root_path = some "/usr/local" := by
  refine ⟨?_, by decide, by decide⟩
  intro env p r hp hr
  have hp' : (get_flutter_path env).1 = some p := hp
  have hr' : (get_flutter_path env).1.bind parentPath = some r := hr
  rw [hp'] at hr'
  simpa using hr'

/-- Witness for C9 at the concrete locate output. -/
theorem C9_root_is_parent_of_bin_witness :
    parentPath "/usr/local/bin" = some "/usr/local" :=
  C9_root_is_parent_of_bin.1 (envLinux none) "/usr/local/bin" "/usr/local"
    (by decide) (by decide)

end FC
